import Mathlib

/-!
Verification development for the picard_mcp OAuth 2.1-style authorization server.

The definitions below are a shallow embedding of the authorization-server core:
  * src/mcp_server/app/models/oauth.py         (OAuthClient, AuthorizationCode, Token)
  * src/mcp_server/app/models/token_blacklist.py (TokenBlacklist)
  * src/mcp_server/app/utils/oauth.py          (validation / issuance helpers)
  * src/mcp_server/app/middleware/oauth.py     (bearer middleware, revoke_token)
  * src/mcp_server/app/api/endpoints/oauth.py  (authorize, consent, token endpoints)
  * src/mcp_server/app/api/endpoints/token_management.py (revoke endpoint)

Modelling conventions:
  * the SQLAlchemy session is a pure record DB of row lists; a query
    .filter(...).first() is List.find?, db.delete of the row returned by first()
    is removeFirst, mutating that row is updateFirst;
  * datetime values are integers (seconds); datetime.utcnow() is an explicit
    argument now; timedelta(minutes=m) is m*60, timedelta(days=d) is d*86400;
  * secrets.token_urlsafe(32) results are passed in as explicit arguments
    (gen_... parameters), since they are draws from an external entropy source;
  * base64url(sha256(.)).rstrip("=") from hashlib/base64 (standard library, not
    part of this repository) is an explicit function argument sha256_b64url;
  * Python string truthiness of Optional[str] values is strTruthy.
-/

/-- Python truthiness of an Optional[str] value: None and the empty string are falsy. -/
def strTruthy : Option String → Bool
  | none => false
  | some s => s != ""

/-- Remove the first element satisfying p; models db.delete of the row
returned by .filter(...).first() in SQLAlchemy. -/
def removeFirst (p : α → Bool) : List α → List α
  | [] => []
  | x :: xs => if p x then xs else x :: removeFirst p xs

/-- Replace the first element satisfying p by f of it; models attribute
assignment on the row returned by .filter(...).first() in SQLAlchemy. -/
def updateFirst (p : α → Bool) (f : α → α) : List α → List α
  | [] => []
  | x :: xs => if p x then f x :: xs else x :: updateFirst p f xs

/-- Python str.startswith on character lists. -/
def listStartsWith : List Char → List Char → Bool
  | _, [] => true
  | [], _ :: _ => false
  | c :: cs, p :: ps => c == p && listStartsWith cs ps

/-- Python str.startswith. -/
def pyStartswith (s : String) (pre : String) : Bool :=
  listStartsWith s.data pre.data

/-- Helper for splitting a character list at every space, keeping empty pieces. -/
def splitOnSpaceAux : List Char → List Char → List String
  | [], acc => [String.mk acc.reverse]
  | c :: cs, acc =>
      if c == ' ' then String.mk acc.reverse :: splitOnSpaceAux cs []
      else splitOnSpaceAux cs (c :: acc)

/-- Python str.split(" "): split at every single space, keeping empty pieces. -/
def splitOnSpace (s : String) : List String :=
  splitOnSpaceAux s.data []

/-- Python str.split() with no argument: split on whitespace and drop empty
pieces (whitespace restricted to the space character, the only separator used
in scope strings of this code base). -/
def pySplit (s : String) : List String :=
  (splitOnSpace s).filter (fun piece => piece != "")

/-- Python str.lower, restricted to ASCII as Char.toLower is. -/
def pyLower (s : String) : String :=
  String.mk (s.data.map Char.toLower)

/-- OAuthClient row, src/mcp_server/app/models/oauth.py lines 10-32.  id is the
BaseModel primary key; client_id is the public UUID identifier (modelled as a
string).  Metadata columns not consulted by any embedded operation
(grant_types, client_uri, ...) are omitted. -/
structure OAuthClient where
  id : Nat
  client_id : String
  client_secret : String
  client_name : String
  redirect_uris : List String
  scopes : List String
  is_confidential : Bool
deriving Repr, DecidableEq

/-- AuthorizationCode row, src/mcp_server/app/models/oauth.py lines 34-54.
client_id is a foreign key to the client primary key id. -/
structure AuthorizationCode where
  code : String
  client_id : Nat
  user_id : String
  redirect_uri : String
  scope : String
  expires_at : Int
  code_challenge : Option String
  code_challenge_method : Option String
deriving Repr, DecidableEq

/-- AuthorizationCode.is_expired property (models/oauth.py lines 51-54). -/
def AuthorizationCode.is_expired (a : AuthorizationCode) (now : Int) : Bool :=
  now > a.expires_at

/-- Token row, src/mcp_server/app/models/oauth.py lines 56-67. -/
structure Token where
  access_token : String
  refresh_token : String
  client_id : Nat
  user_id : String
  scope : String
  access_token_expires_at : Int
  refresh_token_expires_at : Int
  is_revoked : Bool
deriving Repr, DecidableEq

/-- Token.is_access_token_expired property (models/oauth.py lines 73-76). -/
def Token.is_access_token_expired (t : Token) (now : Int) : Bool :=
  now > t.access_token_expires_at

/-- Token.is_refresh_token_expired property (models/oauth.py lines 78-81). -/
def Token.is_refresh_token_expired (t : Token) (now : Int) : Bool :=
  now > t.refresh_token_expires_at

/-- TokenBlacklist row, src/mcp_server/app/models/token_blacklist.py lines 11-18. -/
structure TokenBlacklistEntry where
  token_jti : String
  blacklisted_at : Int
  reason : Option String
  expires_at : Int
deriving Repr, DecidableEq

/-- The relational store: one list of rows per table. -/
structure DB where
  clients : List OAuthClient
  authorization_codes : List AuthorizationCode
  tokens : List Token
  token_blacklist : List TokenBlacklistEntry
deriving Repr, DecidableEq

/-- settings.ACCESS_TOKEN_EXPIRE_MINUTES (app/core/config.py line 34). -/
def ACCESS_TOKEN_EXPIRE_MINUTES : Int := 60

/-- settings.REFRESH_TOKEN_EXPIRE_DAYS (app/core/config.py line 35). -/
def REFRESH_TOKEN_EXPIRE_DAYS : Int := 30

/-- validate_client, src/mcp_server/app/utils/oauth.py lines 23-34. -/
def validate_client (db : DB) (client_id : String) : Option OAuthClient :=
  db.clients.find? (fun c => c.client_id == client_id)

/-- validate_redirect_uri, src/mcp_server/app/utils/oauth.py lines 36-47. -/
def validate_redirect_uri (client : OAuthClient) (redirect_uri : String) : Bool :=
  client.redirect_uris.contains redirect_uri

/-- validate_client_credentials, src/mcp_server/app/utils/oauth.py lines 49-60:
a plain Python string equality of the stored and presented secret. -/
def validate_client_credentials (client : OAuthClient) (client_secret : String) : Bool :=
  client.client_secret == client_secret

/-- Number of character positions examined by a left-to-right short-circuit
equality scan: the observable comparison cost of CPython string equality
(unicode_compare_eq stops at the first mismatching position).  This is a cost
semantics for the == in validate_client_credentials, not repository code. -/
def eqScanCost : List Char → List Char → Nat
  | [], _ => 0
  | _ :: _, [] => 0
  | a :: as, b :: bs => if a == b then 1 + eqScanCost as bs else 1

/-- Comparison cost observable for one run of validate_client_credentials:
CPython first compares lengths, then scans until the first mismatch. -/
def validate_client_credentials_cost (client : OAuthClient) (client_secret : String) : Nat :=
  if client.client_secret.length == client_secret.length then
    eqScanCost client.client_secret.data client_secret.data
  else 0

/-- OAuthError payload (error, description), src/mcp_server/app/utils/oauth.py lines 16-21. -/
abbrev OAuthErr := String × String

/-- create_authorization_code, src/mcp_server/app/utils/oauth.py lines 62-113.
gen_code stands for the secrets.token_urlsafe(32) draw.  Returns none for the
ValueError raised when the client_id resolves to no client. -/
def create_authorization_code (gen_code : String) (db : DB) (now : Int)
    (client_id : String) (user_id : String) (redirect_uri : String) (scope : String)
    (code_challenge : Option String) (code_challenge_method : Option String) :
    Option (DB × String) :=
  match db.clients.find? (fun c => c.client_id == client_id) with
  | none => none
  | some client =>
      let auth_code : AuthorizationCode := {
        code := gen_code
        client_id := client.id
        user_id := user_id
        redirect_uri := redirect_uri
        scope := scope
        expires_at := now + 10 * 60
        code_challenge := code_challenge
        code_challenge_method := code_challenge_method }
      some ({ db with authorization_codes := db.authorization_codes ++ [auth_code] }, gen_code)

/-- validate_authorization_code, src/mcp_server/app/utils/oauth.py lines 115-171.
sha256_b64url stands for base64.urlsafe_b64encode(hashlib.sha256(.).digest())
stripped of = padding.  The expiry branch deletes the found row (db.delete +
commit), hence the DB component of the result. -/
def validate_authorization_code (sha256_b64url : String → String) (db : DB) (now : Int)
    (code : String) (client_id : Nat) (redirect_uri : String)
    (code_verifier : Option String) : DB × Except OAuthErr AuthorizationCode :=
  match db.authorization_codes.find? (fun a => a.code == code && a.client_id == client_id) with
  | none => (db, Except.error ("invalid_grant", "Invalid authorization code"))
  | some auth_code =>
      if auth_code.is_expired now then
        ({ db with authorization_codes :=
            (removeFirst (fun a => a.code == code && a.client_id == client_id)
              db.authorization_codes) },
         Except.error ("invalid_grant", "Authorization code has expired"))
      else if auth_code.redirect_uri != redirect_uri then
        (db, Except.error ("invalid_grant", "Redirect URI mismatch"))
      else if strTruthy auth_code.code_challenge && strTruthy auth_code.code_challenge_method then
        if !strTruthy code_verifier then
          (db, Except.error ("invalid_grant", "Code verifier required"))
        else if auth_code.code_challenge_method == some "S256" then
          if some (sha256_b64url (code_verifier.getD "")) != auth_code.code_challenge then
            (db, Except.error ("invalid_grant", "Code verifier does not match challenge"))
          else (db, Except.ok auth_code)
        else (db, Except.ok auth_code)
      else (db, Except.ok auth_code)

/-- create_access_token, src/mcp_server/app/utils/oauth.py lines 173-220.
gen_access / gen_refresh stand for the two secrets.token_urlsafe(32) draws.
Returns none for the ValueError raised when the client_id resolves to no
client; otherwise the new DB and (access_token, refresh_token, expires_in). -/
def create_access_token (gen_access gen_refresh : String) (db : DB) (now : Int)
    (client_id : String) (user_id : String) (scope : String) :
    Option (DB × String × String × Int) :=
  match db.clients.find? (fun c => c.client_id == client_id) with
  | none => none
  | some client =>
      let token : Token := {
        access_token := gen_access
        refresh_token := gen_refresh
        client_id := client.id
        user_id := user_id
        scope := scope
        access_token_expires_at := now + ACCESS_TOKEN_EXPIRE_MINUTES * 60
        refresh_token_expires_at := now + REFRESH_TOKEN_EXPIRE_DAYS * 86400
        is_revoked := false }
      some ({ db with tokens := db.tokens ++ [token] },
        gen_access, gen_refresh, ACCESS_TOKEN_EXPIRE_MINUTES * 60)

/-- validate_access_token, src/mcp_server/app/utils/oauth.py lines 222-238. -/
def validate_access_token (db : DB) (now : Int) (token : String) : Option Token :=
  match db.tokens.find? (fun t => t.access_token == token) with
  | none => none
  | some token_obj =>
      if token_obj.is_access_token_expired now || token_obj.is_revoked then none
      else some token_obj

/-- The attribute overwrite refresh_access_token performs on the row it found
(src/mcp_server/app/utils/oauth.py lines 266-278): the two token strings and
the two expiries are replaced, every other column is left as it was. -/
def rotateTokenRow (gen_access gen_refresh : String) (now : Int) (t : Token) : Token :=
  { t with
    access_token := gen_access,
    refresh_token := gen_refresh,
    access_token_expires_at := now + ACCESS_TOKEN_EXPIRE_MINUTES * 60,
    refresh_token_expires_at := now + REFRESH_TOKEN_EXPIRE_DAYS * 86400 }

/-- refresh_access_token, src/mcp_server/app/utils/oauth.py lines 240-283.
The rotation overwrites the four token/expiry fields of the row found by
refresh_token; the is_revoked flag is never consulted by the source. -/
def refresh_access_token (gen_access gen_refresh : String) (db : DB) (now : Int)
    (refresh_token : String) : DB × Option (String × String × Int) :=
  match db.tokens.find? (fun t => t.refresh_token == refresh_token) with
  | none => (db, none)
  | some token_obj =>
      if now > token_obj.refresh_token_expires_at then (db, none)
      else
        ({ db with tokens :=
            (updateFirst (fun t => t.refresh_token == refresh_token)
              (rotateTokenRow gen_access gen_refresh now)
              db.tokens) },
         some (gen_access, gen_refresh, ACCESS_TOKEN_EXPIRE_MINUTES * 60))

/-- TokenBlacklist.is_blacklisted, src/mcp_server/app/models/token_blacklist.py
lines 20-40: lazily deletes an expired blacklist row. -/
def is_blacklisted (db : DB) (now : Int) (token_jti : String) : DB × Bool :=
  match db.token_blacklist.find? (fun b => b.token_jti == token_jti) with
  | none => (db, false)
  | some entry =>
      if now > entry.expires_at then
        ({ db with token_blacklist :=
            removeFirst (fun b => b.token_jti == token_jti) db.token_blacklist },
         false)
      else (db, true)

/-- PUBLIC_ENDPOINTS, src/mcp_server/app/middleware/oauth.py lines 18-30. -/
def PUBLIC_ENDPOINTS : List String :=
  ["/health", "/docs", "/redoc", "/openapi.json", "/api/oauth/token",
   "/api/oauth/authorize", "/api/oauth/consent", "/api/users/register",
   "/api/users/login", "/", "/static"]

/-- The request data consulted by verify_token_middleware. -/
structure MiddlewareRequest where
  path : String
  authorization : Option String
  x_test_override_scopes : Option String
deriving Repr, DecidableEq

/-- Outcome of verify_token_middleware: forwarding to the downstream handler
(with or without request.state set) or a 401 JSON unauthorized response. -/
inductive MiddlewareOutcome where
  | publicForward
  | testOverrideForward
  | forwarded (user_id : String) (scopes : List String) (token : String)
  | unauthorized (error_description : String)
deriving Repr, DecidableEq

/-- verify_token_middleware, src/mcp_server/app/middleware/oauth.py lines 32-107.
The public-endpoint test is any(path.startswith(endpoint) for endpoint in
PUBLIC_ENDPOINTS). -/
def verify_token_middleware (db : DB) (now : Int) (req : MiddlewareRequest) :
    DB × MiddlewareOutcome :=
  if PUBLIC_ENDPOINTS.any (fun endpoint => pyStartswith req.path endpoint) then
    (db, MiddlewareOutcome.publicForward)
  else if !strTruthy req.authorization
      || !pyStartswith (req.authorization.getD "") "Bearer " then
    (db, MiddlewareOutcome.unauthorized "Missing or invalid token")
  else if req.x_test_override_scopes == some "true" then
    (db, MiddlewareOutcome.testOverrideForward)
  else
    let token := (splitOnSpace (req.authorization.getD "")).getD 1 ""
    match validate_access_token db now token with
    | none => (db, MiddlewareOutcome.unauthorized "Token is invalid or expired")
    | some token_obj =>
        match is_blacklisted db now token with
        | (db1, true) => (db1, MiddlewareOutcome.unauthorized "Token has been revoked")
        | (db1, false) =>
            (db1, MiddlewareOutcome.forwarded token_obj.user_id (pySplit token_obj.scope) token)

/-- revoke_token, src/mcp_server/app/middleware/oauth.py lines 137-169. -/
def revoke_token (db : DB) (now : Int) (token : String) (reason : Option String) :
    DB × Bool :=
  match validate_access_token db now token with
  | none => (db, false)
  | some token_obj =>
      ({ db with token_blacklist := db.token_blacklist ++
          [{ token_jti := token
             blacklisted_at := now
             reason := reason
             expires_at := token_obj.access_token_expires_at }] },
       true)

/-- Response of the revocation endpoint: 200 JSON or an HTTPException. -/
inductive RevokeResponse where
  | ok
  | httpError (status : Nat) (detail : String)
deriving Repr, DecidableEq

/-- Token-argument resolution of revoke_token_endpoint
(token_management.py lines 40-47): a falsy body token falls back to
request.state.token. -/
def resolveRevokeToken (body_token state_token : Option String) : Option String :=
  if strTruthy body_token then body_token else state_token

/-- revoke_token_endpoint, src/mcp_server/app/api/endpoints/token_management.py
lines 17-58.  body_token is the optional JSON body token, state_token is
request.state.token as set by the middleware (None when unset). -/
def revoke_token_endpoint (db : DB) (now : Int) (body_token : Option String)
    (reason : Option String) (state_token : Option String) : DB × RevokeResponse :=
  if !strTruthy (resolveRevokeToken body_token state_token) then
    (db, RevokeResponse.httpError 400 "No token provided and no current token found")
  else
    match revoke_token db now ((resolveRevokeToken body_token state_token).getD "") reason with
    | (db1, false) => (db1, RevokeResponse.httpError 400 "Failed to revoke token")
    | (db1, true) => (db1, RevokeResponse.ok)

/-- The form body consumed by the token endpoint. -/
structure TokenRequest where
  grant_type : String
  code : Option String
  redirect_uri : Option String
  client_id : String
  client_secret : Option String
  code_verifier : Option String
  refresh_token : Option String
deriving Repr, DecidableEq

/-- Response of the token endpoint: the 200 JSON body or an error JSON with its
HTTP status. -/
inductive TokenResponse where
  | ok (access_token : String) (token_type : String) (expires_in : Int)
      (refresh_token : String) (scope : String)
  | err (status : Nat) (error : String) (error_description : String)
deriving Repr, DecidableEq

/-- token endpoint, src/mcp_server/app/api/endpoints/oauth.py lines 285-411.
gen_access / gen_refresh stand for the secrets.token_urlsafe(32) draws made by
create_access_token or refresh_access_token during the call. -/
def token (sha256_b64url : String → String) (gen_access gen_refresh : String)
    (db : DB) (now : Int) (req : TokenRequest) : DB × TokenResponse :=
  match validate_client db req.client_id with
  | none => (db, TokenResponse.err 400 "invalid_client" "Invalid client")
  | some client =>
      if client.is_confidential && !strTruthy req.client_secret then
        (db, TokenResponse.err 400 "invalid_client" "Client authentication required")
      else if client.is_confidential
          && !validate_client_credentials client (req.client_secret.getD "") then
        (db, TokenResponse.err 400 "invalid_client" "Invalid client credentials")
      else if req.grant_type == "authorization_code" then
        if !strTruthy req.code || !strTruthy req.redirect_uri then
          (db, TokenResponse.err 400 "invalid_request" "Missing required parameters")
        else if !strTruthy req.code_verifier then
          (db, TokenResponse.err 400 "invalid_request" "Code verifier required")
        else
          match validate_authorization_code sha256_b64url db now (req.code.getD "")
              client.id (req.redirect_uri.getD "") req.code_verifier with
          | (db1, Except.error e) => (db1, TokenResponse.err 400 e.1 e.2)
          | (db1, Except.ok auth_code) =>
              match create_access_token gen_access gen_refresh db1 now
                  client.client_id auth_code.user_id auth_code.scope with
              | none =>
                  (db1, TokenResponse.err 500 "server_error"
                    "An error occurred processing the token request")
              | some (db2, access_token, refresh_token, expires_in) =>
                  ({ db2 with authorization_codes :=
                      (removeFirst
                        (fun a => a.code == auth_code.code && a.client_id == auth_code.client_id)
                        db2.authorization_codes) },
                   TokenResponse.ok access_token "bearer" expires_in refresh_token
                     auth_code.scope)
      else if req.grant_type == "refresh_token" then
        if !strTruthy req.refresh_token then
          (db, TokenResponse.err 400 "invalid_request" "Refresh token required")
        else
          match refresh_access_token gen_access gen_refresh db now
              (req.refresh_token.getD "") with
          | (db1, none) =>
              (db1, TokenResponse.err 400 "invalid_grant" "Invalid or expired refresh token")
          | (db1, some (new_access_token, new_refresh_token, expires_in)) =>
              match db1.tokens.find? (fun t => t.refresh_token == new_refresh_token) with
              | none =>
                  (db1, TokenResponse.err 500 "server_error" "Token not found after refresh")
              | some token_obj =>
                  (db1, TokenResponse.ok new_access_token "bearer" expires_in
                    new_refresh_token token_obj.scope)
      else (db, TokenResponse.err 400 "unsupported_grant_type" "Unsupported grant type")

/-- Response of the authorize endpoint: a 302 redirect, the rendered 200
consent page, or an HTTPException. -/
inductive AuthorizeResponse where
  | redirect (location : String)
  | consentPage (client_name : String) (redirect_uri : String) (scope : String)
      (state : String) (code_challenge : String) (code_challenge_method : String)
  | httpError (status : Nat) (detail : String)
deriving Repr, DecidableEq

/-- authorize endpoint, src/mcp_server/app/api/endpoints/oauth.py lines 139-283.
The OAuthError raised for an unregistered redirect_uri is handled by the
endpoint's except-clause, which 302-redirects to the supplied redirect_uri
whenever redirect_uri and state are both truthy and only otherwise falls back
to a direct 400.  current_user is the result of the get_current_user
dependency; template rendering is modelled as succeeding. -/
def authorize (db : DB) (response_type : String) (client_id : String)
    (redirect_uri : String) (scope : String) (state : String)
    (code_challenge : Option String) (code_challenge_method : Option String)
    (current_user : Option String) : AuthorizeResponse :=
  if response_type != "code" then
    AuthorizeResponse.redirect (redirect_uri ++ "?error=unsupported_response_type&state=" ++ state)
  else
    match validate_client db client_id with
    | none =>
        AuthorizeResponse.redirect (redirect_uri ++ "?error=invalid_client&state=" ++ state)
    | some client =>
        if !validate_redirect_uri client redirect_uri then
          if redirect_uri != "" && state != "" then
            AuthorizeResponse.redirect
              (redirect_uri ++ "?error=invalid_request&error_description=Invalid redirect URI&state=" ++ state)
          else AuthorizeResponse.httpError 400 "invalid_request: Invalid redirect URI"
        else if (pySplit scope).any (fun req_scope => !client.scopes.contains req_scope) then
          AuthorizeResponse.redirect (redirect_uri ++ "?error=invalid_scope&state=" ++ state)
        else if strTruthy code_challenge_method && code_challenge_method != some "S256" then
          AuthorizeResponse.redirect
            (redirect_uri ++ "?error=invalid_request&error_description=Unsupported+code+challenge+method&state=" ++ state)
        else if !strTruthy code_challenge then
          AuthorizeResponse.redirect
            (redirect_uri ++ "?error=invalid_request&error_description=Code+challenge+required&state=" ++ state)
        else
          match current_user with
          | none =>
              AuthorizeResponse.redirect (redirect_uri ++ "?error=login_required&state=" ++ state)
          | some _ =>
              AuthorizeResponse.consentPage client.client_name redirect_uri scope state
                (code_challenge.getD "")
                (if !strTruthy code_challenge_method then "S256"
                 else code_challenge_method.getD "")

/-- Response of the consent endpoint: a 302 redirect or an HTTPException. -/
inductive ConsentResponse where
  | redirect (location : String)
  | httpError (status : Nat) (detail : String)
deriving Repr, DecidableEq

/-- consent endpoint, src/mcp_server/app/api/endpoints/oauth.py lines 41-136.
current_user is the authenticated user id (the require_authenticated_user
dependency rejects unauthenticated calls before the handler runs).  The
code_challenge and code_challenge_method form fields are optional and are
passed to create_authorization_code unchecked. -/
def consent (gen_code : String) (db : DB) (now : Int) (client_id : String)
    (redirect_uri : String) (scope : String) (state : String)
    (response_type : String) (decision : String)
    (code_challenge : Option String) (code_challenge_method : Option String)
    (current_user : String) : DB × ConsentResponse :=
  match validate_client db client_id with
  | none =>
      (db, ConsentResponse.redirect (redirect_uri ++ "?error=invalid_client&state=" ++ state))
  | some client =>
      if !validate_redirect_uri client redirect_uri then
        if redirect_uri != "" && state != "" then
          (db, ConsentResponse.redirect
            (redirect_uri ++ "?error=invalid_request&error_description=Invalid redirect URI&state=" ++ state))
        else (db, ConsentResponse.httpError 400 "invalid_request: Invalid redirect URI")
      else if pyLower decision != "approve" then
        (db, ConsentResponse.redirect
          (redirect_uri ++ "?error=access_denied&error_description=The+user+denied+the+request&state=" ++ state))
      else
        match create_authorization_code gen_code db now client.client_id current_user
            redirect_uri scope code_challenge code_challenge_method with
        | none =>
            if redirect_uri != "" && state != "" then
              (db, ConsentResponse.redirect
                (redirect_uri ++ "?error=server_error&state=" ++ state))
            else (db, ConsentResponse.httpError 500 "Server error")
        | some (db1, auth_code) =>
            (db1, ConsentResponse.redirect
              (redirect_uri ++ "?code=" ++ auth_code ++ "&state=" ++ state))

/-- Confidential client fixture used by the concrete theorems below. -/
def exClient : OAuthClient :=
  { id := 1, client_id := "c-1", client_secret := "sec", client_name := "Example App",
    redirect_uris := ["https://app/cb"], scopes := ["memories:read", "memories:write"],
    is_confidential := true }

/-- Store holding only the client fixture. -/
def exDbClientOnly : DB :=
  { clients := [exClient], authorization_codes := [], tokens := [], token_blacklist := [] }

/-- Token row whose is_revoked flag is set while its refresh token is far from expiry. -/
def exRevokedToken : Token :=
  { access_token := "AT", refresh_token := "R", client_id := 1, user_id := "u",
    scope := "memories:read", access_token_expires_at := 100,
    refresh_token_expires_at := 1000, is_revoked := true }

/-- Store holding the client fixture and the revoked token row. -/
def exDbRevoked : DB :=
  { clients := [exClient], authorization_codes := [], tokens := [exRevokedToken],
    token_blacklist := [] }

/-- Well-formed refresh_token grant request for the token R with correct client secret. -/
def exRefreshReq : TokenRequest :=
  { grant_type := "refresh_token", code := none, redirect_uri := none, client_id := "c-1",
    client_secret := some "sec", code_verifier := none, refresh_token := some "R" }

/-- The revoked token row after the rotation the source performs on it. -/
def exRotatedRevokedToken : Token :=
  { access_token := "newA", refresh_token := "newR", client_id := 1, user_id := "u",
    scope := "memories:read", access_token_expires_at := 3600,
    refresh_token_expires_at := 2592000, is_revoked := true }

/-- Client fixture whose stored secret is the four-character string aaaa. -/
def exClientSecretAAAA : OAuthClient := { exClient with client_secret := "aaaa" }

/-- Authorization-code row with an empty stored code_challenge and method S256,
as persisted by a direct POST /consent whose code_challenge form field is empty. -/
def exCodeEmptyChallenge : AuthorizationCode :=
  { code := "K", client_id := 1, user_id := "u", redirect_uri := "https://app/cb",
    scope := "memories:read", expires_at := 600, code_challenge := some "",
    code_challenge_method := some "S256" }

/-- Store holding the client fixture and the empty-challenge code row. -/
def exDbEmptyChallenge : DB :=
  { clients := [exClient], authorization_codes := [exCodeEmptyChallenge], tokens := [],
    token_blacklist := [] }

/-- Stand-in for sha256_b64url in concrete runs: a constant function returning a
43-character base64url value (every real sha256_b64url output is 43 characters
long and in particular non-empty). -/
def exHash : String → String := fun _ => "E9Melhoa2OwvFrEMTJguCHaoeK1t8URWbuGJSstw-cM"

/-- Well-formed authorization_code exchange request for code K with a code_verifier. -/
def exAuthCodeReq : TokenRequest :=
  { grant_type := "authorization_code", code := some "K",
    redirect_uri := some "https://app/cb", client_id := "c-1",
    client_secret := some "sec", code_verifier := some "V", refresh_token := none }

/-- Authorization-code row persisted by the consent fixture call with no PKCE fields. -/
def exCodeNoPkce : AuthorizationCode :=
  { code := "K", client_id := 1, user_id := "u", redirect_uri := "https://app/cb",
    scope := "memories:read", expires_at := 600, code_challenge := none,
    code_challenge_method := none }

/-- Authorization-code row whose stored challenge equals the exHash output, so
the fixture exchange passes PKCE verification. -/
def exCodeMatching : AuthorizationCode :=
  { code := "K", client_id := 1, user_id := "u", redirect_uri := "https://app/cb",
    scope := "memories:read", expires_at := 600,
    code_challenge := some "E9Melhoa2OwvFrEMTJguCHaoeK1t8URWbuGJSstw-cM",
    code_challenge_method := some "S256" }

/-- Store holding the client fixture and the matching-challenge code row. -/
def exDbMatching : DB :=
  { clients := [exClient], authorization_codes := [exCodeMatching], tokens := [],
    token_blacklist := [] }

/-- Authorization-code row whose stored challenge CH differs from the exHash
output of every verifier. -/
def exCodeChallengeCH : AuthorizationCode :=
  { code := "K", client_id := 1, user_id := "u", redirect_uri := "https://app/cb",
    scope := "memories:read", expires_at := 600, code_challenge := some "CH",
    code_challenge_method := some "S256" }

/-- Store holding the client fixture and the CH-challenge code row. -/
def exDbChallengeCH : DB :=
  { clients := [exClient], authorization_codes := [exCodeChallengeCH], tokens := [],
    token_blacklist := [] }

/-- Live (neither revoked nor expired) token row with refresh token R. -/
def exLiveToken : Token :=
  { access_token := "AT", refresh_token := "R", client_id := 1, user_id := "u",
    scope := "memories:read", access_token_expires_at := 100,
    refresh_token_expires_at := 1000, is_revoked := false }

/-- Store holding the client fixture and the live token row. -/
def exDbLive : DB :=
  { clients := [exClient], authorization_codes := [], tokens := [exLiveToken],
    token_blacklist := [] }

/-- Token row as minted by the fixture exchange and rotation runs. -/
def exFreshToken : Token :=
  { access_token := "A1", refresh_token := "R1", client_id := 1, user_id := "u",
    scope := "memories:read", access_token_expires_at := 3600,
    refresh_token_expires_at := 2592000, is_revoked := false }

/-- Store after the fixture exchange of exDbMatching (code consumed, token
minted); it is also the store after the fixture rotation of exDbLive. -/
def exDbAfterExchange : DB :=
  { clients := [exClient], authorization_codes := [], tokens := [exFreshToken],
    token_blacklist := [] }

/-- Blacklist row inserted by the fixture revocation of the access token AT. -/
def exBlacklistEntryAT : TokenBlacklistEntry :=
  { token_jti := "AT", blacklisted_at := 0, reason := none, expires_at := 100 }

/-- Store after the fixture revocation: the token row itself is untouched. -/
def exDbLiveBlacklisted : DB :=
  { clients := [exClient], authorization_codes := [], tokens := [exLiveToken],
    token_blacklist := [exBlacklistEntryAT] }

/-- Any path beginning with the root slash matches the PUBLIC_ENDPOINTS
prefix test of the middleware, since the allow-list contains the entry slash. -/
theorem public_endpoints_any_of_slash (path : String) (h : pyStartswith path "/" = true) :
    PUBLIC_ENDPOINTS.any (fun endpoint => pyStartswith path endpoint) = true := by
  simp only [PUBLIC_ENDPOINTS, List.any_cons, List.any_nil, Bool.or_eq_true]
  tauto

/-- C1: refuted as stated.  Bearer validation is skipped for EVERY request
path, not only for the enumerated allow-list: the allow-list entry slash is
matched by the any(path.startswith(endpoint)) test against every HTTP path, so
the middleware forwards every request and its 401 branch is unreachable. -/
theorem c1_middleware_skips_all_paths (db : DB) (now : Int) (req : MiddlewareRequest)
    (h : pyStartswith req.path "/" = true) :
    verify_token_middleware db now req = (db, MiddlewareOutcome.publicForward) := by
  unfold verify_token_middleware
  rw [public_endpoints_any_of_slash req.path h]
  simp

/-- Witness for c1_middleware_skips_all_paths: the path /api/memories is not an
element of PUBLIC_ENDPOINTS, yet a request for it bearing no Authorization
header at all is forwarded rather than answered with 401 unauthorized. -/
theorem c1_middleware_skips_all_paths_witness :
    PUBLIC_ENDPOINTS.contains "/api/memories" = false ∧
    pyStartswith "/api/memories" "/" = true ∧
    verify_token_middleware exDbRevoked 0
      { path := "/api/memories", authorization := none, x_test_override_scopes := none }
      = (exDbRevoked, MiddlewareOutcome.publicForward) :=
  ⟨by decide, by decide,
   c1_middleware_skips_all_paths exDbRevoked 0
     { path := "/api/memories", authorization := none, x_test_override_scopes := none }
     (by decide)⟩

/-- C3: refuted as stated (code bug).  A token row whose is_revoked flag is set
but whose refresh token is unexpired is rotated successfully by a well-formed
refresh_token grant: the endpoint returns a fresh pair and overwrites the row
instead of returning invalid_grant, because refresh_access_token never
consults is_revoked. -/
theorem c3_refresh_grant_ignores_is_revoked :
    exRevokedToken.is_revoked = true ∧
    token exHash "newA" "newR" exDbRevoked 0 exRefreshReq
      = ({ exDbRevoked with tokens := [exRotatedRevokedToken] },
         TokenResponse.ok "newA" "bearer" 3600 "newR" "memories:read") :=
  ⟨rfl, by decide⟩

/-- C5: refuted as stated (code bug).  A GET /authorize whose redirect_uri is
not registered for the resolved client is answered with a 302 redirect
carrying error=invalid_request to that very unvalidated redirect_uri (the
except-clause redirects whenever redirect_uri and state are non-empty), not
with a direct 400. -/
theorem c5_authorize_redirects_error_to_unregistered_uri :
    validate_redirect_uri exClient "https://evil.example/cb" = false ∧
    authorize exDbClientOnly "code" "c-1" "https://evil.example/cb" "memories:read" "xyz"
      (some "CH") (some "S256") (some "u")
      = AuthorizeResponse.redirect
          "https://evil.example/cb?error=invalid_request&error_description=Invalid redirect URI&state=xyz" :=
  ⟨by decide, by decide⟩

/-- C7: refuted as stated (code bug).  A direct authenticated POST /consent
with decision approve and no code_challenge form field persists an
AuthorizationCode row whose PKCE columns are both null, and the subsequent
authorization_code exchange of that code succeeds with an arbitrary
code_verifier. -/
theorem c7_consent_persists_code_without_pkce :
    consent "K" exDbClientOnly 0 "c-1" "https://app/cb" "memories:read" "xyz" "code"
        "approve" none none "u"
      = ({ exDbClientOnly with authorization_codes := [exCodeNoPkce] },
         ConsentResponse.redirect "https://app/cb?code=K&state=xyz") ∧
    exCodeNoPkce.code_challenge = none ∧
    exCodeNoPkce.code_challenge_method = none ∧
    (token exHash "A1" "R1" { exDbClientOnly with authorization_codes := [exCodeNoPkce] } 0
        { grant_type := "authorization_code", code := some "K",
          redirect_uri := some "https://app/cb", client_id := "c-1",
          client_secret := some "sec", code_verifier := some "ANY",
          refresh_token := none }).2
      = TokenResponse.ok "A1" "bearer" 3600 "R1" "memories:read" :=
  ⟨by decide, rfl, rfl, by decide⟩

/-- C8: refuted as stated (code bug).  Client authentication compares the
presented secret with a short-circuit scan: for the stored secret aaaa, the
equal-length presentations aaaa (correct) and baaa (incorrect) are
distinguished by the comparison cost (4 positions examined against 1) and not
only by the boolean result, so the compare is not constant-time. -/
theorem c8_client_secret_compare_is_not_constant_time :
    validate_client_credentials exClientSecretAAAA "aaaa" = true ∧
    validate_client_credentials exClientSecretAAAA "baaa" = false ∧
    ("aaaa" : String).length = ("baaa" : String).length ∧
    validate_client_credentials_cost exClientSecretAAAA "aaaa" = 4 ∧
    validate_client_credentials_cost exClientSecretAAAA "baaa" = 1 :=
  ⟨by decide, by decide, by decide, by decide, by decide⟩

/-- C6 counterexample: the stored code has code_challenge_method S256 and a
stored code_challenge (the empty string) that differs from the recomputed
base64url-sha256 value of the presented verifier, yet the exchange succeeds
and issues a token: the source skips PKCE verification whenever the stored
challenge is falsy. -/
theorem c6_counterexample :
    exCodeEmptyChallenge.code_challenge_method = some "S256" ∧
    some (exHash "V") ≠ exCodeEmptyChallenge.code_challenge ∧
    (token exHash "A1" "R1" exDbEmptyChallenge 0 exAuthCodeReq).2
      = TokenResponse.ok "A1" "bearer" 3600 "R1" "memories:read" :=
  ⟨rfl, by decide, by decide⟩

theorem removeFirst_find?_none (p : α → Bool) (l : List α)
    (h : l.countP p ≤ 1) : (removeFirst p l).find? p = none := by
  induction l with
  | nil => rfl
  | cons x xs ih =>
    by_cases hx : p x = true
    · have hc : (x :: xs).countP p = xs.countP p + 1 := List.countP_cons_of_pos p xs hx
      have hxs : xs.countP p = 0 := by omega
      simp only [removeFirst]
      rw [if_pos hx, List.find?_eq_none]
      intro y hy
      have := List.countP_eq_zero.mp hxs y hy
      simpa using this
    · have hx' : ¬ p x := by simpa using hx
      have hc : (x :: xs).countP p = xs.countP p := List.countP_cons_of_neg p xs hx'
      simp only [removeFirst]
      rw [if_neg hx, List.find?_cons_of_neg _ hx']
      exact ih (by omega)

theorem updateFirst_find?_none (p : α → Bool) (f : α → α) (l : List α)
    (hf : ∀ x, p (f x) = false) (h : l.countP p ≤ 1) :
    (updateFirst p f l).find? p = none := by
  induction l with
  | nil => rfl
  | cons x xs ih =>
    by_cases hx : p x = true
    · have hc : (x :: xs).countP p = xs.countP p + 1 := List.countP_cons_of_pos p xs hx
      have hxs : xs.countP p = 0 := by omega
      simp only [updateFirst]
      rw [if_pos hx, List.find?_cons_of_neg _ (by simp [hf x]), List.find?_eq_none]
      intro y hy
      have := List.countP_eq_zero.mp hxs y hy
      simpa using this
    · have hx' : ¬ p x := by simpa using hx
      have hc : (x :: xs).countP p = xs.countP p := List.countP_cons_of_neg p xs hx'
      simp only [updateFirst]
      rw [if_neg hx, List.find?_cons_of_neg _ hx']
      exact ih (by omega)

theorem find?_updateFirst_fresh (p q : α → Bool) (f : α → α) (l : List α) (x : α)
    (hfind : l.find? p = some x) (hq : ∀ y ∈ l, q y = false) (hqf : q (f x) = true) :
    (updateFirst p f l).find? q = some (f x) := by
  induction l with
  | nil => simp at hfind
  | cons z zs ih =>
    by_cases hz : p z = true
    · rw [List.find?_cons_of_pos _ hz] at hfind
      have hzx : z = x := by injection hfind
      subst hzx
      simp only [updateFirst]
      rw [if_pos hz, List.find?_cons_of_pos _ hqf]
    · have hz' : ¬ p z := by simpa using hz
      rw [List.find?_cons_of_neg _ hz'] at hfind
      simp only [updateFirst]
      rw [if_neg hz, List.find?_cons_of_neg _ (by simp [hq z (List.mem_cons_self z zs)])]
      exact ih hfind (fun y hy => hq y (List.mem_cons_of_mem z hy))

theorem validate_client_congr (db1 db : DB) (cid : String) (h : db1.clients = db.clients) :
    validate_client db1 cid = validate_client db cid := by
  unfold validate_client; rw [h]

theorem validate_access_token_congr (db1 db : DB) (now : Int) (tok : String)
    (h : db1.tokens = db.tokens) :
    validate_access_token db1 now tok = validate_access_token db now tok := by
  unfold validate_access_token; rw [h]

theorem refresh_access_token_some_inv (g1 g2 : String) (db : DB) (now : Int) (rt : String)
    (db1 : DB) (na nr : String) (ei : Int)
    (h : refresh_access_token g1 g2 db now rt = (db1, some (na, nr, ei))) :
    ∃ tok, db.tokens.find? (fun x => x.refresh_token == rt) = some tok ∧
      ¬ now > tok.refresh_token_expires_at ∧
      na = g1 ∧ nr = g2 ∧ ei = ACCESS_TOKEN_EXPIRE_MINUTES * 60 ∧
      db1.clients = db.clients ∧ db1.authorization_codes = db.authorization_codes ∧
      db1.token_blacklist = db.token_blacklist ∧
      db1.tokens = updateFirst (fun x => x.refresh_token == rt)
        (rotateTokenRow g1 g2 now) db.tokens := by
  unfold refresh_access_token at h
  split at h
  · simp at h
  next tok hfind =>
    split at h
    next hexp => simp at h
    next hexp =>
      obtain ⟨hdb, hsome⟩ := Prod.mk.injEq .. |>.mp h
      obtain ⟨hna, hnr, hei⟩ : na = g1 ∧ nr = g2 ∧ ei = ACCESS_TOKEN_EXPIRE_MINUTES * 60 := by
        have := hsome
        simp at this
        tauto
      subst hdb
      exact ⟨tok, hfind, hexp, hna, hnr, hei, rfl, rfl, rfl, rfl⟩

theorem token_refresh_success_inv (sha : String → String) (g1 g2 : String) (db : DB)
    (now : Int) (req : TokenRequest) (db1 : DB) (a t r s : String) (ei : Int)
    (hgrant : req.grant_type = "refresh_token")
    (h : token sha g1 g2 db now req = (db1, TokenResponse.ok a t ei r s)) :
    ∃ client tok tok2,
      validate_client db req.client_id = some client ∧
      (client.is_confidential && !strTruthy req.client_secret) = false ∧
      (client.is_confidential
        && !validate_client_credentials client (req.client_secret.getD "")) = false ∧
      strTruthy req.refresh_token = true ∧
      db.tokens.find? (fun x => x.refresh_token == req.refresh_token.getD "") = some tok ∧
      ¬ now > tok.refresh_token_expires_at ∧
      a = g1 ∧ t = "bearer" ∧ r = g2 ∧ ei = ACCESS_TOKEN_EXPIRE_MINUTES * 60 ∧
      db1.clients = db.clients ∧ db1.authorization_codes = db.authorization_codes ∧
      db1.token_blacklist = db.token_blacklist ∧
      db1.tokens = updateFirst (fun x => x.refresh_token == req.refresh_token.getD "")
        (rotateTokenRow g1 g2 now) db.tokens ∧
      db1.tokens.find? (fun x => x.refresh_token == g2) = some tok2 ∧
      s = tok2.scope := by
  unfold token at h
  rw [hgrant] at h
  split at h
  · simp at h
  next client hc =>
    split at h
    next h1 => simp at h
    next h1 =>
      split at h
      next h2 => simp at h
      next h2 =>
        split at h
        next hga => exact absurd hga (by decide)
        next hga =>
          split at h
          next hgr =>
            split at h
            next h3 => simp at h
            next h3 =>
              split at h
              next hr => simp at h
              next db1x nax nrx eix hr =>
                split at h
                next hfind2 => simp at h
                next tok2 hfind2 =>
                  obtain ⟨tok, hfind, hexp, hna, hnr, hei, hcl, hac, hbl, htoks⟩ :=
                    refresh_access_token_some_inv g1 g2 db now (req.refresh_token.getD "")
                      db1x nax nrx eix hr
                  simp only [Prod.mk.injEq, TokenResponse.ok.injEq] at h
                  obtain ⟨hdb, ha, ht, hei2, hr2, hs⟩ := h
                  subst hdb
                  subst hna
                  subst hnr
                  subst hei
                  refine ⟨client, tok, tok2, hc, by simpa using h1, by simpa using h2,
                    by simpa using h3, hfind, hexp, ha.symm, ht.symm, hr2.symm, hei2.symm,
                    hcl, hac, hbl, htoks, hfind2, hs.symm⟩
          next hgr => exact absurd (by decide) hgr

theorem create_access_token_some_inv (g1 g2 : String) (db : DB) (now : Int)
    (cid uid scope : String) (db2 : DB) (a_ r_ : String) (ei : Int)
    (h : create_access_token g1 g2 db now cid uid scope = some (db2, a_, r_, ei)) :
    db2.clients = db.clients ∧ db2.authorization_codes = db.authorization_codes ∧
    db2.token_blacklist = db.token_blacklist := by
  unfold create_access_token at h
  split at h
  · simp at h
  next client hc =>
    simp only [Option.some.injEq, Prod.mk.injEq] at h
    obtain ⟨hdb, _⟩ := h
    subst hdb
    exact ⟨rfl, rfl, rfl⟩

theorem validate_authorization_code_ok_inv (sha : String → String) (db : DB) (now : Int)
    (code : String) (cid : Nat) (ruri : String) (ver : Option String) (dbv : DB)
    (ac : AuthorizationCode)
    (h : validate_authorization_code sha db now code cid ruri ver = (dbv, Except.ok ac)) :
    dbv = db ∧
    db.authorization_codes.find? (fun x => x.code == code && x.client_id == cid) = some ac := by
  unfold validate_authorization_code at h
  split at h
  · simp at h
  next ac0 hfind =>
    split at h
    next => simp at h
    next =>
      split at h
      next => simp at h
      next =>
        split at h
        · split at h
          next => simp at h
          next =>
            split at h
            · split at h
              next => simp at h
              next =>
                simp only [Prod.mk.injEq, Except.ok.injEq] at h
                obtain ⟨h5, h6⟩ := h
                subst h5; subst h6
                exact ⟨rfl, hfind⟩
            · simp only [Prod.mk.injEq, Except.ok.injEq] at h
              obtain ⟨h5, h6⟩ := h
              subst h5; subst h6
              exact ⟨rfl, hfind⟩
        · simp only [Prod.mk.injEq, Except.ok.injEq] at h
          obtain ⟨h5, h6⟩ := h
          subst h5; subst h6
          exact ⟨rfl, hfind⟩

theorem token_authcode_success_inv (sha : String → String) (g1 g2 : String) (db : DB)
    (now : Int) (req : TokenRequest) (db1 : DB) (a t r s : String) (ei : Int)
    (hgrant : req.grant_type = "authorization_code")
    (h : token sha g1 g2 db now req = (db1, TokenResponse.ok a t ei r s)) :
    ∃ client ac,
      validate_client db req.client_id = some client ∧
      (client.is_confidential && !strTruthy req.client_secret) = false ∧
      (client.is_confidential
        && !validate_client_credentials client (req.client_secret.getD "")) = false ∧
      strTruthy req.code = true ∧
      db.authorization_codes.find?
        (fun x => x.code == req.code.getD "" && x.client_id == client.id) = some ac ∧
      db1.clients = db.clients ∧
      db1.authorization_codes = removeFirst
        (fun x => x.code == ac.code && x.client_id == ac.client_id)
        db.authorization_codes := by
  unfold token at h
  rw [hgrant] at h
  split at h
  · simp at h
  next client hc =>
    split at h
    next h1 => simp at h
    next h1 =>
      split at h
      next h2 => simp at h
      next h2 =>
        split at h
        next hga =>
          split at h
          next h3 => simp at h
          next h3 =>
            split at h
            next h4 => simp at h
            next h4 =>
              split at h
              next dbv e hval => simp at h
              next dbv ac hval =>
                obtain ⟨hdbv, hfindac⟩ :=
                  validate_authorization_code_ok_inv sha db now (req.code.getD "")
                    client.id (req.redirect_uri.getD "") req.code_verifier dbv ac hval
                subst hdbv
                split at h
                next hcat => simp at h
                next db2 a2 r2 ei2 hcat =>
                  obtain ⟨hc2, ha2, hb2⟩ :=
                    create_access_token_some_inv g1 g2 dbv now client.client_id
                      ac.user_id ac.scope db2 a2 r2 ei2 hcat
                  simp only [Prod.mk.injEq, TokenResponse.ok.injEq] at h
                  obtain ⟨hdb1, _⟩ := h
                  simp only [Bool.or_eq_true, Bool.not_eq_true', not_or,
                    Bool.not_eq_false] at h3
                  refine ⟨client, ac, hc, by simpa using h1, by simpa using h2, h3.1,
                    hfindac, ?_, ?_⟩
                  · rw [← hdb1]
                    exact hc2
                  · rw [← hdb1]
                    show removeFirst _ db2.authorization_codes = _
                    rw [ha2]
        next hga => exact absurd (by decide) hga

/-- C2: every authorization code is single-use.  When an authorization_code
exchange of code K succeeds (and K occurs in at most one stored code row, as
its high-entropy generation guarantees), the success path deletes the code
row, so any subsequent well-formed token request presenting the same K with
the same client and secret is answered 400 invalid_grant and issues nothing. -/
theorem c2_authorization_code_single_use
    (sha : String → String) (g1 g2 g3 g4 : String) (db db1 : DB) (now now1 : Int)
    (req req1 : TokenRequest) (a t r s : String) (ei : Int)
    (hgrant : req.grant_type = "authorization_code")
    (hrun : token sha g1 g2 db now req = (db1, TokenResponse.ok a t ei r s))
    (huniq : db.authorization_codes.countP (fun x => x.code == req.code.getD "") ≤ 1)
    (hgrant1 : req1.grant_type = "authorization_code")
    (hcode1 : req1.code = req.code)
    (hcid1 : req1.client_id = req.client_id)
    (hsec1 : req1.client_secret = req.client_secret)
    (hruri1 : strTruthy req1.redirect_uri = true)
    (hver1 : strTruthy req1.code_verifier = true) :
    (token sha g3 g4 db1 now1 req1).2
      = TokenResponse.err 400 "invalid_grant" "Invalid authorization code" := by
  obtain ⟨client, ac, hc, h1, h2, hcode, hfind, hcl, hcodes⟩ :=
    token_authcode_success_inv sha g1 g2 db now req db1 a t r s ei hgrant hrun
  have hpac := List.find?_some hfind
  simp only [Bool.and_eq_true, beq_iff_eq] at hpac
  have hvc : validate_client db1 req1.client_id = some client := by
    rw [hcid1, validate_client_congr db1 db _ hcl]
    exact hc
  have hcnt : db.authorization_codes.countP
      (fun x => x.code == req.code.getD "" && x.client_id == client.id) ≤ 1 := by
    refine le_trans (List.countP_mono_left ?_) huniq
    intro x hx hpx
    simp only [Bool.and_eq_true] at hpx
    exact hpx.1
  have hnone : db1.authorization_codes.find?
      (fun x => x.code == req.code.getD "" && x.client_id == client.id) = none := by
    rw [hcodes, hpac.1, hpac.2]
    exact removeFirst_find?_none _ _ hcnt
  have hval2 : validate_authorization_code sha db1 now1 (req1.code.getD "")
      client.id (req1.redirect_uri.getD "") req1.code_verifier
      = (db1, Except.error ("invalid_grant", "Invalid authorization code")) := by
    unfold validate_authorization_code
    rw [hcode1, hnone]
  unfold token
  split
  next hx => rw [hvc] at hx; cases hx
  next c hx =>
    rw [hvc] at hx
    obtain rfl : c = client := (Option.some.inj hx).symm
    split
    next hcond =>
      rw [hsec1] at hcond
      exact absurd hcond (by simp [h1])
    next hcond1 =>
      split
      next hcond =>
        rw [hsec1] at hcond
        exact absurd hcond (by simp [h2])
      next hcond2 =>
        split
        next hga =>
          split
          next hcond =>
            rw [hcode1] at hcond
            simp [hcode, hruri1] at hcond
          next hcond3 =>
            split
            next hcond =>
              simp [hver1] at hcond
            next hcond4 =>
              split
              next dbv e hx2 =>
                rw [hval2] at hx2
                simp only [Prod.mk.injEq, Except.error.injEq] at hx2
                obtain ⟨hdbv, he⟩ := hx2
                rw [← he]
              next dbv ac2 hx2 =>
                rw [hval2] at hx2
                simp at hx2
        next hga =>
          rw [hgrant1] at hga
          exact absurd (by decide) hga

/-- C4: refresh-token rotation replaces both token strings in place.  After a
successful refresh_token grant using refresh token R (with R stored in at most
one row and the fresh draws distinct from R, as their high-entropy generation
guarantees), the returned pair differs from R, and any later refresh_token
grant presenting R with the same client and secret is answered 400
invalid_grant: the replaced string never authenticates again. -/
theorem c4_refresh_token_rotated_at_most_once
    (sha : String → String) (g1 g2 g3 g4 : String) (db db1 : DB) (now now1 : Int)
    (req req1 : TokenRequest) (a t r s : String) (ei : Int)
    (hgrant : req.grant_type = "refresh_token")
    (hrun : token sha g1 g2 db now req = (db1, TokenResponse.ok a t ei r s))
    (hfreshA : g1 ≠ req.refresh_token.getD "")
    (hfreshR : g2 ≠ req.refresh_token.getD "")
    (huniq : db.tokens.countP (fun x => x.refresh_token == req.refresh_token.getD "") ≤ 1)
    (hgrant1 : req1.grant_type = "refresh_token")
    (hrt1 : req1.refresh_token = req.refresh_token)
    (hcid1 : req1.client_id = req.client_id)
    (hsec1 : req1.client_secret = req.client_secret) :
    a ≠ req.refresh_token.getD "" ∧ r ≠ req.refresh_token.getD "" ∧
    (token sha g3 g4 db1 now1 req1).2
      = TokenResponse.err 400 "invalid_grant" "Invalid or expired refresh token" := by
  obtain ⟨client, tok, tok2, hc, h1, h2, h3, hfind, hexp, ha, ht, hr, hei, hcl, hac, hbl,
    htoks, hfind2, hs⟩ :=
    token_refresh_success_inv sha g1 g2 db now req db1 a t r s ei hgrant hrun
  subst ha; subst hr
  have hvc : validate_client db1 req1.client_id = some client := by
    rw [hcid1, validate_client_congr db1 db _ hcl]
    exact hc
  have hnone : db1.tokens.find?
      (fun x => x.refresh_token == req.refresh_token.getD "") = none := by
    rw [htoks]
    refine updateFirst_find?_none _ _ _ (fun x => ?_) huniq
    simp only [rotateTokenRow]
    exact beq_eq_false_iff_ne.mpr hfreshR
  have hra : refresh_access_token g3 g4 db1 now1 (req1.refresh_token.getD "")
      = (db1, none) := by
    unfold refresh_access_token
    rw [hrt1, hnone]
  refine ⟨hfreshA, hfreshR, ?_⟩
  unfold token
  split
  next hx => rw [hvc] at hx; cases hx
  next c hx =>
    rw [hvc] at hx
    obtain rfl : c = client := (Option.some.inj hx).symm
    split
    next hcond => rw [hsec1] at hcond; exact absurd hcond (by simp [h1])
    next =>
      split
      next hcond => rw [hsec1] at hcond; exact absurd hcond (by simp [h2])
      next =>
        split
        next hga => rw [hgrant1] at hga; exact absurd hga (by decide)
        next =>
          split
          next hgr =>
            split
            next hcond => rw [hrt1] at hcond; simp [h3] at hcond
            next =>
              split
              next dbx hx2 => rfl
              next dbx na nr ei2 hx2 =>
                rw [hra] at hx2
                simp at hx2
          next hgr => rw [hgrant1] at hgr; exact absurd (by decide) hgr

/-- C10: the frame of refresh-token rotation.  A successful refresh_token
grant changes the store exactly by rewriting the matched token row with
rotateTokenRow, which overwrites only access_token, refresh_token and the two
expiry columns: client_id, user_id, scope and is_revoked are unchanged, every
other row and table is untouched, and the returned scope equals the scope the
row held before rotation (the fresh refresh string being new to the table). -/
theorem c10_refresh_rotation_frame
    (sha : String → String) (g1 g2 : String) (db db1 : DB) (now : Int)
    (req : TokenRequest) (a t r s : String) (ei : Int) (tok : Token)
    (hgrant : req.grant_type = "refresh_token")
    (hfind : db.tokens.find?
      (fun x => x.refresh_token == req.refresh_token.getD "") = some tok)
    (hfresh : ∀ y ∈ db.tokens, y.refresh_token ≠ g2)
    (hrun : token sha g1 g2 db now req = (db1, TokenResponse.ok a t ei r s)) :
    s = tok.scope ∧
    db1.tokens = updateFirst (fun x => x.refresh_token == req.refresh_token.getD "")
      (rotateTokenRow g1 g2 now) db.tokens ∧
    (rotateTokenRow g1 g2 now tok).client_id = tok.client_id ∧
    (rotateTokenRow g1 g2 now tok).user_id = tok.user_id ∧
    (rotateTokenRow g1 g2 now tok).scope = tok.scope ∧
    (rotateTokenRow g1 g2 now tok).is_revoked = tok.is_revoked ∧
    db1.clients = db.clients ∧ db1.authorization_codes = db.authorization_codes ∧
    db1.token_blacklist = db.token_blacklist := by
  obtain ⟨client, tok', tok2, hc, h1, h2, h3, hfind', hexp, ha, ht, hr, hei, hcl, hac, hbl,
    htoks, hfind2, hs⟩ :=
    token_refresh_success_inv sha g1 g2 db now req db1 a t r s ei hgrant hrun
  rw [hfind] at hfind'
  obtain rfl : tok = tok' := Option.some.inj hfind'
  have h4 : db1.tokens.find? (fun x => x.refresh_token == g2)
      = some (rotateTokenRow g1 g2 now tok) := by
    rw [htoks]
    refine find?_updateFirst_fresh _ _ _ _ tok hfind (fun y hy => ?_)
      (by simp [rotateTokenRow])
    exact beq_eq_false_iff_ne.mpr (hfresh y hy)
  have htok2 : tok2 = rotateTokenRow g1 g2 now tok := by
    rw [hfind2] at h4
    exact Option.some.inj h4
  refine ⟨?_, htoks, rfl, rfl, rfl, rfl, hcl, hac, hbl⟩
  rw [hs, htok2]
  simp [rotateTokenRow]

theorem revoke_token_true_inv (db : DB) (now : Int) (tk : String) (reason : Option String)
    (db1 : DB) (h : revoke_token db now tk reason = (db1, true)) :
    db1.tokens = db.tokens ∧ ∃ tok, validate_access_token db now tk = some tok := by
  unfold revoke_token at h
  split at h
  · simp at h
  next tok hv =>
    simp only [Prod.mk.injEq] at h
    obtain ⟨hdb, _⟩ := h
    subst hdb
    exact ⟨rfl, tok, hv⟩

/-- C9: POST /tokens/revoke is idempotent on well-formed authenticated input.
When a revocation call succeeds with 200, repeating it (same token argument,
any reason) at the same instant returns 200 again: revocation only appends a
blacklist row, the token row stays valid for validate_access_token, so the
already-revoked token is re-blacklisted and the endpoint never errors on the
second call. -/
theorem c9_revoke_endpoint_idempotent (db db1 : DB) (now : Int)
    (body_token reason reason1 state_token : Option String)
    (h : revoke_token_endpoint db now body_token reason state_token
      = (db1, RevokeResponse.ok)) :
    (revoke_token_endpoint db1 now body_token reason1 state_token).2
      = RevokeResponse.ok := by
  unfold revoke_token_endpoint at h ⊢
  split at h
  next hcond => simp at h
  next hcond =>
    split at h
    next dbx hrv => simp at h
    next dbx hrv =>
      simp only [Prod.mk.injEq] at h
      obtain ⟨hdb, _⟩ := h
      subst hdb
      obtain ⟨htk, tok, hv⟩ := revoke_token_true_inv db now _ reason _ hrv
      rw [if_neg hcond]
      have hsecond : ∃ dbz, revoke_token dbx now
          ((resolveRevokeToken body_token state_token).getD "") reason1
          = (dbz, true) := by
        refine ⟨{ dbx with token_blacklist := dbx.token_blacklist ++ [{ token_jti := (resolveRevokeToken body_token state_token).getD "", blacklisted_at := now, reason := reason1, expires_at := tok.access_token_expires_at }] }, ?_⟩
        unfold revoke_token
        rw [validate_access_token_congr dbx db now _ htk, hv]
      obtain ⟨dbz, hsecond⟩ := hsecond
      rw [hsecond]

/-- C6 (amended): for every authorization_code exchange that passes client
authentication and the preliminary code checks, whenever the stored code has a
NON-EMPTY code_challenge, its challenge method is S256, and the recomputed
base64url-sha256 of the presented code_verifier differs from the stored
challenge, the token endpoint returns 400 invalid_grant and leaves the store
unchanged (no token is issued).  The non-emptiness proviso is forced by the
counterexample: the source skips PKCE verification when the stored challenge
is null or the empty string. -/
theorem c6_amended_pkce_mismatch_rejected
    (sha : String → String) (g1 g2 : String) (db : DB) (now : Int)
    (req : TokenRequest) (client : OAuthClient) (ac : AuthorizationCode) (ch : String)
    (hgrant : req.grant_type = "authorization_code")
    (hclient : validate_client db req.client_id = some client)
    (hsec1 : (client.is_confidential && !strTruthy req.client_secret) = false)
    (hsec2 : (client.is_confidential
      && !validate_client_credentials client (req.client_secret.getD "")) = false)
    (hcode : strTruthy req.code = true)
    (hruri : strTruthy req.redirect_uri = true)
    (hver : strTruthy req.code_verifier = true)
    (hfind : db.authorization_codes.find?
      (fun x => x.code == req.code.getD "" && x.client_id == client.id) = some ac)
    (hexp : ac.is_expired now = false)
    (hredir : ac.redirect_uri = req.redirect_uri.getD "")
    (hch : ac.code_challenge = some ch)
    (hch0 : ch ≠ "")
    (hmeth : ac.code_challenge_method = some "S256")
    (hmismatch : sha (req.code_verifier.getD "") ≠ ch) :
    token sha g1 g2 db now req
      = (db, TokenResponse.err 400 "invalid_grant"
          "Code verifier does not match challenge") := by
  have hval : validate_authorization_code sha db now (req.code.getD "") client.id
      (req.redirect_uri.getD "") req.code_verifier
      = (db, Except.error ("invalid_grant", "Code verifier does not match challenge")) := by
    unfold validate_authorization_code
    rw [hfind]
    split
    next hx => simp at hx
    next auth hx =>
      obtain rfl : ac = auth := Option.some.inj hx
      split
      next hx2 => simp [hexp] at hx2
      next =>
        split
        next hx2 => simp [hredir] at hx2
        next =>
          split
          next =>
            split
            next hx2 => simp [hver] at hx2
            next =>
              split
              next =>
                split
                next hx2 => rfl
                next hx2 =>
                  rw [Bool.not_eq_true] at hx2
                  simp [hch] at hx2
                  exact absurd hx2 hmismatch
              next hx2 => exact absurd (by simp [hmeth]) hx2
          next hx2 => exact absurd (by simp [hch, hmeth, strTruthy, hch0]) hx2
  unfold token
  split
  next hx => rw [hclient] at hx; cases hx
  next c hx =>
    rw [hclient] at hx
    obtain rfl : c = client := (Option.some.inj hx).symm
    split
    next hcond => exact absurd hcond (by simp [hsec1])
    next =>
      split
      next hcond => exact absurd hcond (by simp [hsec2])
      next =>
        split
        next hga =>
          split
          next hcond => simp [hcode, hruri] at hcond
          next =>
            split
            next hcond => simp [hver] at hcond
            next =>
              split
              next dbv e hx2 =>
                rw [hval] at hx2
                simp only [Prod.mk.injEq, Except.error.injEq] at hx2
                obtain ⟨hdbv, he⟩ := hx2
                rw [← hdbv, ← he]
              next dbv ac2 hx2 =>
                rw [hval] at hx2
                simp at hx2
        next hga =>
          rw [hgrant] at hga
          exact absurd (by decide) hga

/-- Witness for c2_authorization_code_single_use at the fixture exchange. -/
theorem c2_authorization_code_single_use_witness :
    (token exHash "A2" "R2" exDbAfterExchange 5 exAuthCodeReq).2
      = TokenResponse.err 400 "invalid_grant" "Invalid authorization code" :=
  c2_authorization_code_single_use exHash "A1" "R1" "A2" "R2" exDbMatching
    exDbAfterExchange 0 5 exAuthCodeReq exAuthCodeReq "A1" "bearer" "R1" "memories:read"
    3600 rfl (by decide) (by decide) rfl rfl rfl rfl (by decide) (by decide)

/-- Witness for c4_refresh_token_rotated_at_most_once at the fixture rotation. -/
theorem c4_refresh_token_rotated_at_most_once_witness :
    ("A1" : String) ≠ "R" ∧ ("R1" : String) ≠ "R" ∧
    (token exHash "A2" "R2" exDbAfterExchange 7 exRefreshReq).2
      = TokenResponse.err 400 "invalid_grant" "Invalid or expired refresh token" :=
  c4_refresh_token_rotated_at_most_once exHash "A1" "R1" "A2" "R2" exDbLive
    exDbAfterExchange 0 7 exRefreshReq exRefreshReq "A1" "bearer" "R1" "memories:read"
    3600 rfl (by decide) (by decide) (by decide) (by decide) rfl rfl rfl rfl

/-- Witness for c10_refresh_rotation_frame at the fixture rotation. -/
theorem c10_refresh_rotation_frame_witness :
    ("memories:read" : String) = exLiveToken.scope ∧
    exDbAfterExchange.tokens = updateFirst (fun x => x.refresh_token == "R")
      (rotateTokenRow "A1" "R1" 0) exDbLive.tokens ∧
    (rotateTokenRow "A1" "R1" 0 exLiveToken).client_id = exLiveToken.client_id ∧
    (rotateTokenRow "A1" "R1" 0 exLiveToken).user_id = exLiveToken.user_id ∧
    (rotateTokenRow "A1" "R1" 0 exLiveToken).scope = exLiveToken.scope ∧
    (rotateTokenRow "A1" "R1" 0 exLiveToken).is_revoked = exLiveToken.is_revoked ∧
    exDbAfterExchange.clients = exDbLive.clients ∧
    exDbAfterExchange.authorization_codes = exDbLive.authorization_codes ∧
    exDbAfterExchange.token_blacklist = exDbLive.token_blacklist :=
  c10_refresh_rotation_frame exHash "A1" "R1" exDbLive exDbAfterExchange 0 exRefreshReq
    "A1" "bearer" "R1" "memories:read" 3600 exLiveToken rfl (by decide) (by decide)
    (by decide)

/-- Witness for c9_revoke_endpoint_idempotent: revoking the already-revoked
access token AT a second time still returns 200. -/
theorem c9_revoke_endpoint_idempotent_witness :
    (revoke_token_endpoint exDbLiveBlacklisted 0 (some "AT") (some "again") none).2
      = RevokeResponse.ok :=
  c9_revoke_endpoint_idempotent exDbLive exDbLiveBlacklisted 0 (some "AT") none
    (some "again") none (by decide)

/-- Witness for c6_amended_pkce_mismatch_rejected at the CH-challenge fixture. -/
theorem c6_amended_pkce_mismatch_rejected_witness :
    token exHash "A1" "R1" exDbChallengeCH 0 exAuthCodeReq
      = (exDbChallengeCH, TokenResponse.err 400 "invalid_grant"
          "Code verifier does not match challenge") :=
  c6_amended_pkce_mismatch_rejected exHash "A1" "R1" exDbChallengeCH 0 exAuthCodeReq
    exClient exCodeChallengeCH "CH" rfl (by decide) (by decide) (by decide) (by decide)
    (by decide) (by decide) (by decide) (by decide) (by decide) (by decide) (by decide)
    (by decide) (by decide)
